import Mathlib

/-!
Verification development for the CPU-usage tracing agent of
`telemetry/internal/platform/tracing_agent`.  The repository ships the
unit test `cpu_tracing_agent_unittest.py`; the agent implementation it
exercises is modelled here from the design specification: the lifecycle
state machine, the periodic sampling collector (modelled as explicit
sampling ticks), the process-listing line parser, and the trace-event
formatter producing the JSON wire format.
-/

namespace CpuTrace

/-- Modelled from the spec: a ProcessRecord carries the four parsed
tokens of one process-listing line as raw text (`pid`, `path`, `pCpu`,
`pMem`); numeric interpretation is deferred to filtering/consumption. -/
structure ProcessRecord where
  pid : String
  path : String
  pCpu : String
  pMem : String
deriving DecidableEq, Repr

/-- Collect maximal runs of non-separator characters into tokens,
accumulating the current token reversed in `acc`. -/
def tokenizeAux (p : Char → Bool) : List Char → List Char → List String
  | [], acc => if acc.isEmpty then [] else [String.mk acc.reverse]
  | c :: rest, acc =>
    if p c then
      if acc.isEmpty then tokenizeAux p rest []
      else String.mk acc.reverse :: tokenizeAux p rest []
    else tokenizeAux p rest (c :: acc)

/-- Python's `str.split()` with no argument: split on runs of whitespace,
discarding empty tokens, so surrounding and trailing whitespace is
tolerated and collapsed. -/
def pySplit (s : String) : List String :=
  tokenizeAux Char.isWhitespace s.data []

/-- Modelled from the spec: `ParseLine` (the collector's line parser,
absent from src/, only its unit test is present) yields a record exactly
when the line splits into exactly four whitespace-separated tokens, kept
as raw text in order pid, path, pCpu, pMem; otherwise it is invalid. -/
def ParseLine (line : String) : Option ProcessRecord :=
  match pySplit line with
  | [pid, path, pCpu, pMem] => some ⟨pid, path, pCpu, pMem⟩
  | _ => none

/-- Value of a list of decimal digit characters, `none` when empty or
containing a non-digit. -/
def digitsVal (l : List Char) : Option Nat :=
  if l.isEmpty then none
  else if l.all Char.isDigit then
    some (l.foldl (fun a c => a * 10 + (c.toNat - 48)) 0)
  else none

/-- A non-negative fixed-point decimal: the value `mantissa / 10 ^ scale`.
Used as the executable numeric reading of percentage strings. -/
structure Decimal where
  mantissa : Nat
  scale : Nat
deriving DecidableEq, Repr

/-- The rational value a `Decimal` denotes. -/
def Decimal.toRat (d : Decimal) : ℚ :=
  (d.mantissa : ℚ) / 10 ^ d.scale

/-- Order on `Decimal` by cross-multiplication (executable). -/
def Decimal.le (a b : Decimal) : Bool :=
  decide (a.mantissa * 10 ^ b.scale ≤ b.mantissa * 10 ^ a.scale)

/-- Interpretation of a decimal percentage string such as "20.0" as a
fixed-point number; `none` on malformed input.  Models the numeric
reading of the raw `pCpu` text performed by the collector's threshold
filter. -/
def parseDecimal (s : String) : Option Decimal :=
  match s.data.splitOn '.' with
  | [w] => (digitsVal w).map (fun n => ⟨n, 0⟩)
  | [w, f] =>
    match digitsVal w, digitsVal f with
    | some n, some m => some ⟨n * 10 ^ f.length + m, f.length⟩
    | _, _ => none
  | _ => none

/-- Modelled from the spec: the minimum CPU-utilization threshold
constant.  The spec leaves its numeric value as an implementation
constant; one tenth (of a percent) is used as the concrete value. -/
def DEFAULT_MIN_PCPU : Decimal := ⟨1, 1⟩

/-- A parsed record survives the collector's sampling-time filter exactly
when its raw `pCpu` text reads as a number at least `DEFAULT_MIN_PCPU`;
records whose CPU utilization is below the threshold are discarded. -/
def meetsThreshold (r : ProcessRecord) : Bool :=
  match parseDecimal r.pCpu with
  | some d => DEFAULT_MIN_PCPU.le d
  | none => false

/-- Modelled from the spec: one sampling tick's snapshot, the surviving
records tagged with the capture timestamp, immutable once appended. -/
structure Snapshot where
  ts : Nat
  processes : List ProcessRecord
deriving DecidableEq, Repr

/-- Modelled from the spec: the agent lifecycle states — Idle at
construction, Active after a successful start, Stopped after stop. -/
inductive AgentState where
  | Idle
  | Active
  | Stopped
deriving DecidableEq, Repr

/-- Modelled from the spec: the CpuTracingAgent owns the lifecycle state
and the sample buffer (`_snapshots`). -/
structure CpuTracingAgent where
  state : AgentState
  snapshots : List Snapshot
deriving DecidableEq, Repr

/-- The `_snapshot_ongoing` flag observed by the tests: true exactly
while the agent is Active (the background sampling task is running). -/
def CpuTracingAgent.snapshot_ongoing (a : CpuTracingAgent) : Bool :=
  a.state = AgentState.Active

/-- A freshly constructed agent: Idle, with an empty sample buffer. -/
def CpuTracingAgent.mkAgent : CpuTracingAgent :=
  ⟨AgentState.Idle, []⟩

/-- The tracing configuration collaborator: the boolean CPU-tracing
flag read once at Start. -/
structure TracingConfig where
  enable_cpu_trace : Bool
deriving DecidableEq, Repr

/-- Modelled from the spec: `IsSupported` is true exactly when the host
identity reports one of the desktop OS families linux, mac, win; pure
and stateless (a function of the reported OS name only). -/
def IsSupported (osName : String) : Bool :=
  ["linux", "mac", "win"].contains osName

/-- The state-contract violation raised on misuse (Python
`AssertionError`). -/
inductive AssertionError where
  | mk
deriving DecidableEq, Repr

/-- Modelled from the spec: `StartAgentTracing`.  With the CPU-trace
flag disabled it returns false and changes nothing; while already
Active it is a state-contract violation; otherwise it clears the
buffer, transitions to Active and returns true. -/
def StartAgentTracing (a : CpuTracingAgent) (config : TracingConfig) :
    Except AssertionError (Bool × CpuTracingAgent) :=
  if config.enable_cpu_trace = false then
    Except.ok (false, a)
  else if a.state = AgentState.Active then
    Except.error AssertionError.mk
  else
    Except.ok (true, ⟨AgentState.Active, []⟩)

/-- Modelled from the spec: one iteration of the collector's periodic
background sampling loop, given the line-oriented text stream the OS
process-listing facility produced at this tick.  Only an Active agent
samples: each line is parsed, unparseable lines are discarded silently,
records below the CPU threshold are discarded, and the surviving
records are appended as one Snapshot with the tick's timestamp. -/
def SampleTick (a : CpuTracingAgent) (ts : Nat) (lines : List String) :
    CpuTracingAgent :=
  if a.state = AgentState.Active then
    { a with snapshots :=
        a.snapshots ++ [⟨ts, (lines.filterMap ParseLine).filter meetsThreshold⟩] }
  else a

/-- The snapshot one tick's input produces. -/
def mkSnap (t : Nat × List String) : Snapshot :=
  ⟨t.1, (t.2.filterMap ParseLine).filter meetsThreshold⟩

/-- Run a sequence of sampling ticks (the passage of sampling periods). -/
def runTicks (a : CpuTracingAgent) : List (Nat × List String) → CpuTracingAgent
  | [] => a
  | t :: ts => runTicks (SampleTick a t.1 t.2) ts

/-- Modelled from the spec: `StopAgentTracing` requires the agent to be
Active (else a state-contract violation); it stops the sampling task and
transitions to Stopped, keeping the buffer. -/
def StopAgentTracing (a : CpuTracingAgent) : Except AssertionError CpuTracingAgent :=
  if a.state = AgentState.Active then
    Except.ok { a with state := AgentState.Stopped }
  else
    Except.error AssertionError.mk

/-- A JSON value, the shape of the decoded payload the sink stores. -/
inductive JValue where
  | jstr (s : String)
  | jnum (n : Nat)
  | jbool (b : Bool)
  | jnull
  | jarr (xs : List JValue)
  | jobj (fields : List (String × JValue))

/-- Field lookup in a JSON object; `none` on other shapes or a missing
key. -/
def jLookup (v : JValue) (k : String) : Option JValue :=
  match v with
  | JValue.jobj fs => (fs.find? (fun f => f.1 = k)).map Prod.snd
  | _ => none

/-- The keys of a JSON object, in order; `[]` on other shapes. -/
def jKeys (v : JValue) : List String :=
  match v with
  | JValue.jobj fs => fs.map Prod.fst
  | _ => []

/-- The elements of a JSON array; `[]` on other shapes. -/
def jArrElems (v : JValue) : List JValue :=
  match v with
  | JValue.jarr xs => xs
  | _ => []

/-- True exactly when the value is a JSON array with at least one
element. -/
def jIsNonEmptyArr (v : JValue) : Bool :=
  match v with
  | JValue.jarr (_ :: _) => true
  | _ => false

/-- The key set of each trace-event object in the wire format. -/
def TRACE_EVENT_KEYS : List String :=
  ["name", "tid", "pid", "ph", "args", "local", "id", "ts"]

/-- The key set of each process-record object in the wire format. -/
def SNAPSHOT_KEYS : List String :=
  ["pid", "name", "path", "pCpu", "pMem"]

/-- Modelled from the spec: the wire-format JSON object for one process
record, exposing exactly the keys pid, name, path, pCpu, pMem with the
raw parsed text.  The spec does not fix how `name` is derived from the
parsed path; the parsed path is exposed under both keys here. -/
def recordToJson (r : ProcessRecord) : JValue :=
  JValue.jobj
    [("pid", JValue.jstr r.pid),
     ("name", JValue.jstr r.path),
     ("path", JValue.jstr r.path),
     ("pCpu", JValue.jstr r.pCpu),
     ("pMem", JValue.jstr r.pMem)]

/-- Modelled from the spec: the TraceEvent produced one-to-one from a
Snapshot, with exactly the keys name, tid, pid, ph, args, local, id, ts,
and `args.snapshot.processes` carrying the snapshot's records.
`hostPid` is the observing process id stamped on each event. -/
def snapshotToTraceEvent (hostPid : Nat) (s : Snapshot) : JValue :=
  JValue.jobj
    [("name", JValue.jstr "CPUSnapshots"),
     ("tid", JValue.jnull),
     ("pid", JValue.jnum hostPid),
     ("ph", JValue.jstr "O"),
     ("args", JValue.jobj
        [("snapshot", JValue.jobj
           [("processes", JValue.jarr (s.processes.map recordToJson))])]),
     ("local", JValue.jbool true),
     ("id", JValue.jstr "cpu_snapshots"),
     ("ts", JValue.jnum s.ts)]

/-- Modelled from the spec: the formatter maps each buffered snapshot,
in capture order, to exactly one TraceEvent; no filtering happens here. -/
def FormatSnapshots (hostPid : Nat) (a : CpuTracingAgent) : JValue :=
  JValue.jarr (a.snapshots.map (snapshotToTraceEvent hostPid))

/-- The fixed CPU-trace category key under which the sink stores the
payload. -/
def CPU_TRACE_DATA : String := "cpuSnapshots"

/-- The trace-data sink: stored payloads keyed by category. -/
abbrev TraceSink : Type := List (String × JValue)

/-- Sink write: append a payload under a category. -/
def TraceSink.add (sink : TraceSink) (cat : String) (v : JValue) : TraceSink :=
  List.append sink [(cat, v)]

/-- Sink read accessor: is a payload present for the category. -/
def HasTraceFor (sink : TraceSink) (cat : String) : Bool :=
  List.any sink (fun e => e.1 = cat)

/-- Sink read accessor: the payload stored for the category, if any. -/
def GetTraceFor (sink : TraceSink) (cat : String) : Option JValue :=
  (List.find? (fun e => e.1 = cat) sink).map Prod.snd

/-- Modelled from the spec: `CollectAgentTraceData` requires the agent
to be Stopped (else a state-contract violation), formats the full
buffer and writes it to the sink under the CPU-trace category, leaving
the agent state and buffer unchanged. -/
def CollectAgentTraceData (hostPid : Nat) (a : CpuTracingAgent)
    (sink : TraceSink) : Except AssertionError (CpuTracingAgent × TraceSink) :=
  if a.state = AgentState.Stopped then
    Except.ok (a, sink.add CPU_TRACE_DATA (FormatSnapshots hostPid a))
  else
    Except.error AssertionError.mk

/-- A full Start → sampling ticks → Stop → Collect cycle starting from a
freshly constructed agent and an empty sink. -/
def cycle (config : TracingConfig) (ticks : List (Nat × List String))
    (hostPid : Nat) : Except AssertionError (CpuTracingAgent × TraceSink) := do
  let r ← StartAgentTracing CpuTracingAgent.mkAgent config
  let a2 := runTicks r.2 ticks
  let a3 ← StopAgentTracing a2
  CollectAgentTraceData hostPid a3 []

/-- Does every process record stored in the buffer satisfy the CPU
threshold. -/
def bufferOk (a : CpuTracingAgent) : Bool :=
  a.snapshots.all (fun s => s.processes.all meetsThreshold)

/-- Does a wire-format process-record object carry a `pCpu` string that
reads as a number at least the threshold. -/
def jsonRecordOk (v : JValue) : Bool :=
  match jLookup v "pCpu" with
  | some (JValue.jstr s) =>
    match parseDecimal s with
    | some d => DEFAULT_MIN_PCPU.le d
    | none => false
  | _ => false

/-- The `args.snapshot.processes` list of one trace-event object, when
the object is well-formed. -/
def processesOfEvent (e : JValue) : Option (List JValue) := do
  let args ← jLookup e "args"
  let snap ← jLookup args "snapshot"
  let procs ← jLookup snap "processes"
  match procs with
  | JValue.jarr xs => some xs
  | _ => none

/-- Does a decoded payload consist of an array of well-formed trace
events all of whose process records satisfy the CPU threshold. -/
def payloadThresholdOk (v : JValue) : Bool :=
  match v with
  | JValue.jarr evs =>
    evs.all (fun e =>
      match processesOfEvent e with
      | some ps => ps.all jsonRecordOk
      | none => false)
  | _ => false

/-- A Python 2 runtime value of the two types the unit test's threshold
assertion can compare: the record's `pCpu` (a string) and the constant
`DEFAULT_MIN_PCPU` (a number). -/
inductive PyVal where
  | pyStr (s : String)
  | pyFloat (q : ℚ)

/-- Python 2 cross-type ordering on such values: two numbers compare by
numeric value, two strings lexicographically, and in a mixed pair the
number is always the smaller (CPython 2 orders numbers before every
other type). -/
def py2_le : PyVal → PyVal → Bool
  | PyVal.pyFloat a, PyVal.pyFloat b => decide (a ≤ b)
  | PyVal.pyFloat _, PyVal.pyStr _ => true
  | PyVal.pyStr _, PyVal.pyFloat _ => false
  | PyVal.pyStr a, PyVal.pyStr b => decide (a ≤ b)

/-- Python 2 `x >= y` on such values. -/
def py2_ge (x y : PyVal) : Bool :=
  py2_le y x

/-- The comparison written on line 133 of the unit test:
`process['pCpu'] >= cpu_tracing_agent.DEFAULT_MIN_PCPU`, where the
record field is the raw parsed text and the constant is a number. -/
def testThresholdAssertion (pCpuField : String) : Bool :=
  py2_ge (PyVal.pyStr pCpuField) (PyVal.pyFloat DEFAULT_MIN_PCPU.toRat)

/-- The generic tracing-agent capability contract: the operation
signatures an agent implementation provides to the orchestrator. -/
structure TracingAgentContract (A : Type) where
  isSupported : String → Bool
  start : A → TracingConfig → Except AssertionError (Bool × A)
  stop : A → Except AssertionError A
  collect : Nat → A → TraceSink → Except AssertionError (A × TraceSink)

/-- The CPU tracing agent's instantiation of the capability contract. -/
def cpuTracingAgentContract : TracingAgentContract CpuTracingAgent :=
  ⟨IsSupported, StartAgentTracing, StopAgentTracing, CollectAgentTraceData⟩

/-- The agent state a Start → ticks → Stop → Collect cycle ends in. -/
def cycleAgent (ticks : List (Nat × List String)) : CpuTracingAgent :=
  ⟨AgentState.Stopped, ticks.map mkSnap⟩

/-- The decoded payload such a cycle stores in the sink. -/
def cyclePayload (hostPid : Nat) (ticks : List (Nat × List String)) : JValue :=
  JValue.jarr ((ticks.map mkSnap).map (snapshotToTraceEvent hostPid))

/-- The sink contents after such a cycle on an initially empty sink. -/
def cycleSink (hostPid : Nat) (ticks : List (Nat × List String)) : TraceSink :=
  [(CPU_TRACE_DATA, cyclePayload hostPid ticks)]

lemma Decimal.le_iff_toRat (a b : Decimal) :
    a.le b = true ↔ a.toRat ≤ b.toRat := by
  unfold Decimal.le Decimal.toRat
  rw [decide_eq_true_eq,
    div_le_div_iff₀ (by positivity) (by positivity)]
  exact_mod_cast Iff.rfl

lemma runTicks_active :
    ∀ (ticks : List (Nat × List String)) (a : CpuTracingAgent),
      a.state = AgentState.Active →
      runTicks a ticks = ⟨AgentState.Active, a.snapshots ++ ticks.map mkSnap⟩ := by
  intro ticks
  induction ticks with
  | nil =>
    intro a h
    cases a
    simp_all [runTicks]
  | cons t ts ih =>
    intro a h
    have hs : SampleTick a t.1 t.2 =
        ⟨AgentState.Active, a.snapshots ++ [mkSnap t]⟩ := by
      cases a
      simp_all [SampleTick, mkSnap]
    show runTicks (SampleTick a t.1 t.2) ts = _
    rw [hs, ih ⟨AgentState.Active, a.snapshots ++ [mkSnap t]⟩ rfl]
    simp

lemma runTicks_inactive :
    ∀ (ticks : List (Nat × List String)) (a : CpuTracingAgent),
      a.state ≠ AgentState.Active → runTicks a ticks = a := by
  intro ticks
  induction ticks with
  | nil => intro a _; rfl
  | cons t ts ih =>
    intro a h
    have hs : SampleTick a t.1 t.2 = a := by
      cases a
      simp_all [SampleTick]
    show runTicks (SampleTick a t.1 t.2) ts = a
    rw [hs, ih a h]

lemma cycle_eq (config : TracingConfig) (ticks : List (Nat × List String))
    (hostPid : Nat) (hc : config.enable_cpu_trace = true) :
    cycle config ticks hostPid =
      Except.ok (cycleAgent ticks, cycleSink hostPid ticks) := by
  have h1 : StartAgentTracing CpuTracingAgent.mkAgent config =
      Except.ok (true, ⟨AgentState.Active, []⟩) := by
    simp [StartAgentTracing, hc, CpuTracingAgent.mkAgent]
  have h2 : runTicks (⟨AgentState.Active, []⟩ : CpuTracingAgent) ticks =
      ⟨AgentState.Active, ticks.map mkSnap⟩ := by
    rw [runTicks_active ticks ⟨AgentState.Active, []⟩ rfl]
    simp
  simp only [cycle, h1, bind, Except.bind, h2, StopAgentTracing,
    CollectAgentTraceData, cycleAgent, cycleSink, cyclePayload,
    FormatSnapshots, TraceSink.add, CPU_TRACE_DATA]
  rfl

lemma mkSnap_all_meet (t : Nat × List String) :
    ∀ r ∈ (mkSnap t).processes, meetsThreshold r = true := by
  intro r hr
  exact List.of_mem_filter hr

lemma jsonRecordOk_recordToJson (r : ProcessRecord) :
    jsonRecordOk (recordToJson r) = meetsThreshold r := rfl

lemma processesOfEvent_snapshotToTraceEvent (hostPid : Nat) (s : Snapshot) :
    processesOfEvent (snapshotToTraceEvent hostPid s) =
      some (s.processes.map recordToJson) := rfl

lemma jKeys_snapshotToTraceEvent (hostPid : Nat) (s : Snapshot) :
    jKeys (snapshotToTraceEvent hostPid s) = TRACE_EVENT_KEYS := rfl

lemma jKeys_recordToJson (r : ProcessRecord) :
    jKeys (recordToJson r) = SNAPSHOT_KEYS := rfl

/-- C2: `ParseLine` yields a record exactly when its input, after
tolerating and collapsing surrounding and trailing whitespace, has
exactly four whitespace-separated tokens: "", "1000 chrome" and
"1000 chrome 1.0 1.0 1.0" (0, 2 and 5 tokens) yield no record, and
"1000 chrome 20.0 10.0 " yields the record with pid "1000",
path "chrome", pCpu "20.0", pMem "10.0", all fields raw text. -/
theorem parseLine_exactly_four_tokens :
    (∀ line : String,
        (ParseLine line).isSome = true ↔ (pySplit line).length = 4)
    ∧ ParseLine "" = none
    ∧ ParseLine "1000 chrome" = none
    ∧ ParseLine "1000 chrome 1.0 1.0 1.0" = none
    ∧ ParseLine "1000 chrome 20.0 10.0 " =
        some ⟨"1000", "chrome", "20.0", "10.0"⟩ := by
  refine ⟨?_, by decide, by decide, by decide, by decide⟩
  intro line
  unfold ParseLine
  generalize pySplit line = l
  rcases l with _ | ⟨a, _ | ⟨b, _ | ⟨c, _ | ⟨d, _ | ⟨e, t⟩⟩⟩⟩⟩ <;> simp

/-- C7: `IsSupported` is a pure predicate of the reported OS name, true
exactly for the desktop operating-system families linux, mac, win, and
false for every other identity, in particular the Android one. -/
theorem isSupported_desktop_families :
    (∀ osName : String,
        IsSupported osName = true ↔
          (osName = "linux" ∨ osName = "mac" ∨ osName = "win"))
    ∧ IsSupported "linux" = true ∧ IsSupported "mac" = true
    ∧ IsSupported "win" = true ∧ IsSupported "android" = false := by
  refine ⟨?_, by decide, by decide, by decide, by decide⟩
  intro os
  simp [IsSupported]

/-- C8: a freshly constructed agent has an empty `_snapshots` buffer and
`_snapshot_ongoing` false (non-Active), and its operations instantiate
the generic tracing-agent capability contract. -/
theorem fresh_agent_empty_and_idle :
    CpuTracingAgent.mkAgent.snapshots = []
    ∧ CpuTracingAgent.mkAgent.snapshot_ongoing = false
    ∧ cpuTracingAgentContract.isSupported = IsSupported
    ∧ cpuTracingAgentContract.start = StartAgentTracing
    ∧ cpuTracingAgentContract.stop = StopAgentTracing
    ∧ cpuTracingAgentContract.collect = CollectAgentTraceData :=
  ⟨rfl, rfl, rfl, rfl, rfl, rfl⟩

/-- C4: state-contract violations fail hard with AssertionError:
StopAgentTracing while not Active errors, and CollectAgentTraceData
while still Active errors; neither silently recovers. -/
theorem state_contract_assertion_errors (a : CpuTracingAgent)
    (sink : TraceSink) (hostPid : Nat) :
    (a.snapshot_ongoing = false →
      StopAgentTracing a = Except.error AssertionError.mk)
    ∧ (a.snapshot_ongoing = true →
      CollectAgentTraceData hostPid a sink = Except.error AssertionError.mk) := by
  obtain ⟨st, snaps⟩ := a
  constructor <;> intro h <;> cases st <;>
    simp_all [CpuTracingAgent.snapshot_ongoing, StopAgentTracing,
      CollectAgentTraceData]

theorem state_contract_assertion_errors_witness :
    StopAgentTracing CpuTracingAgent.mkAgent = Except.error AssertionError.mk
    ∧ CollectAgentTraceData 7 ⟨AgentState.Active, []⟩ [] =
        Except.error AssertionError.mk :=
  ⟨(state_contract_assertion_errors CpuTracingAgent.mkAgent [] 7).1 (by decide),
   (state_contract_assertion_errors ⟨AgentState.Active, []⟩ [] 7).2 (by decide)⟩

/-- C5: with the CPU-trace flag disabled, StartAgentTracing returns
false and changes nothing: the agent stays non-Active and the buffer
stays empty even after sampling periods elapse, since no background
sampling task was launched. -/
theorem start_disabled_is_noop (config : TracingConfig)
    (ticks : List (Nat × List String))
    (hc : config.enable_cpu_trace = false) :
    StartAgentTracing CpuTracingAgent.mkAgent config =
      Except.ok (false, CpuTracingAgent.mkAgent)
    ∧ runTicks CpuTracingAgent.mkAgent ticks = CpuTracingAgent.mkAgent
    ∧ (runTicks CpuTracingAgent.mkAgent ticks).snapshots = []
    ∧ (runTicks CpuTracingAgent.mkAgent ticks).snapshot_ongoing = false := by
  have hrun := runTicks_inactive ticks CpuTracingAgent.mkAgent (by decide)
  refine ⟨?_, hrun, ?_, ?_⟩
  · simp [StartAgentTracing, hc]
  · rw [hrun]
    rfl
  · rw [hrun]
    rfl

theorem start_disabled_is_noop_witness :
    StartAgentTracing CpuTracingAgent.mkAgent ⟨false⟩ =
      Except.ok (false, CpuTracingAgent.mkAgent)
    ∧ runTicks CpuTracingAgent.mkAgent [(0, ["1000 chrome 20.0 10.0"])] =
        CpuTracingAgent.mkAgent
    ∧ (runTicks CpuTracingAgent.mkAgent
        [(0, ["1000 chrome 20.0 10.0"])]).snapshots = []
    ∧ (runTicks CpuTracingAgent.mkAgent
        [(0, ["1000 chrome 20.0 10.0"])]).snapshot_ongoing = false :=
  start_disabled_is_noop ⟨false⟩ [(0, ["1000 chrome 20.0 10.0"])] rfl

/-- C6: with the CPU-trace flag enabled, StartAgentTracing on a fresh
(Idle) agent returns true and sets the agent Active, and after two
sampling periods of active sampling the buffer holds at least one
snapshot. -/
theorem start_enabled_eventually_samples (config : TracingConfig)
    (t1 t2 : Nat) (l1 l2 : List String)
    (hc : config.enable_cpu_trace = true) :
    StartAgentTracing CpuTracingAgent.mkAgent config =
      Except.ok (true, ⟨AgentState.Active, []⟩)
    ∧ (⟨AgentState.Active, []⟩ : CpuTracingAgent).snapshot_ongoing = true
    ∧ (runTicks ⟨AgentState.Active, []⟩ [(t1, l1), (t2, l2)]).snapshots ≠ [] := by
  refine ⟨?_, rfl, ?_⟩
  · simp [StartAgentTracing, hc, CpuTracingAgent.mkAgent]
  · rw [runTicks_active _ _ rfl]
    simp

theorem start_enabled_eventually_samples_witness :
    StartAgentTracing CpuTracingAgent.mkAgent ⟨true⟩ =
      Except.ok (true, ⟨AgentState.Active, []⟩)
    ∧ (⟨AgentState.Active, []⟩ : CpuTracingAgent).snapshot_ongoing = true
    ∧ (runTicks ⟨AgentState.Active, []⟩
        [(0, ["1000 chrome 20.0 10.0"]), (1, ["1000 chrome 20.0 10.0"])]).snapshots
        ≠ [] :=
  start_enabled_eventually_samples ⟨true⟩ 0 1
    ["1000 chrome 20.0 10.0"] ["1000 chrome 20.0 10.0"] rfl

/-- C10: StartAgentTracing (enabled) followed immediately by
StopAgentTracing (zero sampling periods, so the buffer may be empty) and
CollectAgentTraceData still writes an entry under the CPU-trace
category, and the agent remains non-Active afterwards. -/
theorem collect_after_immediate_stop (config : TracingConfig) (hostPid : Nat)
    (hc : config.enable_cpu_trace = true) :
    cycle config [] hostPid =
      Except.ok (cycleAgent [], cycleSink hostPid [])
    ∧ (cycleAgent []).snapshots = []
    ∧ HasTraceFor (cycleSink hostPid []) CPU_TRACE_DATA = true
    ∧ (cycleAgent []).snapshot_ongoing = false :=
  ⟨cycle_eq config [] hostPid hc, rfl, rfl, rfl⟩

theorem collect_after_immediate_stop_witness :
    cycle ⟨true⟩ [] 7 = Except.ok (cycleAgent [], cycleSink 7 [])
    ∧ (cycleAgent []).snapshots = []
    ∧ HasTraceFor (cycleSink 7 []) CPU_TRACE_DATA = true
    ∧ (cycleAgent []).snapshot_ongoing = false :=
  collect_after_immediate_stop ⟨true⟩ 7 rfl

/-- C1: every process record present in the trace data emitted by
CollectAgentTraceData after a Start → sampling → Stop cycle has a
CPU-utilization value at least `DEFAULT_MIN_PCPU`: the sampling-time
filter guarantees every stored record already satisfies the threshold,
so the emitted payload does too. -/
theorem collected_records_meet_threshold (config : TracingConfig)
    (ticks : List (Nat × List String)) (hostPid : Nat)
    (hc : config.enable_cpu_trace = true) :
    cycle config ticks hostPid =
      Except.ok (cycleAgent ticks, cycleSink hostPid ticks)
    ∧ GetTraceFor (cycleSink hostPid ticks) CPU_TRACE_DATA =
        some (cyclePayload hostPid ticks)
    ∧ bufferOk (cycleAgent ticks) = true
    ∧ payloadThresholdOk (cyclePayload hostPid ticks) = true := by
  refine ⟨cycle_eq config ticks hostPid hc, rfl, ?_, ?_⟩
  · simp only [bufferOk, cycleAgent, List.all_eq_true]
    intro s hs r hr
    obtain ⟨t, ht, rfl⟩ := List.mem_map.mp hs
    exact mkSnap_all_meet t r hr
  · simp only [payloadThresholdOk, cyclePayload, List.all_eq_true]
    intro e he
    obtain ⟨s, hs, rfl⟩ := List.mem_map.mp he
    rw [processesOfEvent_snapshotToTraceEvent]
    simp only [List.all_eq_true]
    intro p hp
    obtain ⟨r, hr, rfl⟩ := List.mem_map.mp hp
    rw [jsonRecordOk_recordToJson]
    obtain ⟨t, ht, rfl⟩ := List.mem_map.mp hs
    exact mkSnap_all_meet t r hr

theorem collected_records_meet_threshold_witness :
    cycle ⟨true⟩ [(0, ["1000 chrome 20.0 10.0"])] 7 =
      Except.ok (cycleAgent [(0, ["1000 chrome 20.0 10.0"])],
        cycleSink 7 [(0, ["1000 chrome 20.0 10.0"])])
    ∧ GetTraceFor (cycleSink 7 [(0, ["1000 chrome 20.0 10.0"])])
        CPU_TRACE_DATA = some (cyclePayload 7 [(0, ["1000 chrome 20.0 10.0"])])
    ∧ bufferOk (cycleAgent [(0, ["1000 chrome 20.0 10.0"])]) = true
    ∧ payloadThresholdOk (cyclePayload 7 [(0, ["1000 chrome 20.0 10.0"])]) =
        true :=
  collected_records_meet_threshold ⟨true⟩ [(0, ["1000 chrome 20.0 10.0"])] 7 rfl

/-- C3: after Start (enabled) → two sampling periods → Stop → Collect,
the agent is non-Active (Stopped), the sink holds the CPU-trace
category, the decoded payload is a non-empty array, each element's key
set equals the trace-event keys, its args hold exactly the snapshot
key, the snapshot holds exactly the processes key, the processes list
is non-empty, and each process record's key set equals the
process-record keys. -/
theorem cycle_wire_format (config : TracingConfig) (hostPid t1 t2 : Nat)
    (l1 l2 : List String) (hc : config.enable_cpu_trace = true)
    (hne : ∀ t ∈ [(t1, l1), (t2, l2)], (mkSnap t).processes ≠ []) :
    cycle config [(t1, l1), (t2, l2)] hostPid =
      Except.ok (cycleAgent [(t1, l1), (t2, l2)],
        cycleSink hostPid [(t1, l1), (t2, l2)])
    ∧ (cycleAgent [(t1, l1), (t2, l2)]).snapshot_ongoing = false
    ∧ (cycleAgent [(t1, l1), (t2, l2)]).state = AgentState.Stopped
    ∧ HasTraceFor (cycleSink hostPid [(t1, l1), (t2, l2)]) CPU_TRACE_DATA = true
    ∧ GetTraceFor (cycleSink hostPid [(t1, l1), (t2, l2)]) CPU_TRACE_DATA =
        some (cyclePayload hostPid [(t1, l1), (t2, l2)])
    ∧ jIsNonEmptyArr (cyclePayload hostPid [(t1, l1), (t2, l2)]) = true
    ∧ ∀ e ∈ jArrElems (cyclePayload hostPid [(t1, l1), (t2, l2)]),
        (∀ k, k ∈ jKeys e ↔ k ∈ TRACE_EVENT_KEYS)
        ∧ ∃ args snap ps,
            jLookup e "args" = some args
            ∧ jKeys args = ["snapshot"]
            ∧ jLookup args "snapshot" = some snap
            ∧ jKeys snap = ["processes"]
            ∧ jLookup snap "processes" = some (JValue.jarr ps)
            ∧ ps ≠ []
            ∧ ∀ p ∈ ps, ∀ k, k ∈ jKeys p ↔ k ∈ SNAPSHOT_KEYS := by
  refine ⟨cycle_eq config [(t1, l1), (t2, l2)] hostPid hc, rfl, rfl, rfl, rfl,
    rfl, ?_⟩
  intro e he
  simp only [cyclePayload, jArrElems] at he
  obtain ⟨s, hs, rfl⟩ := List.mem_map.mp he
  refine ⟨?_, ?_⟩
  · rw [jKeys_snapshotToTraceEvent]
    exact fun k => Iff.rfl
  · refine ⟨_, _, s.processes.map recordToJson, rfl, rfl, rfl, rfl, rfl, ?_, ?_⟩
    · obtain ⟨t, ht, rfl⟩ := List.mem_map.mp hs
      simp only [ne_eq, List.map_eq_nil_iff]
      exact hne t ht
    · intro p hp
      obtain ⟨r, hr, rfl⟩ := List.mem_map.mp hp
      rw [jKeys_recordToJson]
      exact fun k => Iff.rfl

theorem cycle_wire_format_witness :
    cycle ⟨true⟩ [(0, ["1000 chrome 20.0 10.0"]), (1, ["1000 chrome 20.0 10.0"])] 7 =
      Except.ok
        (cycleAgent [(0, ["1000 chrome 20.0 10.0"]), (1, ["1000 chrome 20.0 10.0"])],
          cycleSink 7 [(0, ["1000 chrome 20.0 10.0"]), (1, ["1000 chrome 20.0 10.0"])])
    ∧ (cycleAgent
        [(0, ["1000 chrome 20.0 10.0"]), (1, ["1000 chrome 20.0 10.0"])]).snapshot_ongoing
        = false
    ∧ (cycleAgent
        [(0, ["1000 chrome 20.0 10.0"]), (1, ["1000 chrome 20.0 10.0"])]).state
        = AgentState.Stopped
    ∧ HasTraceFor
        (cycleSink 7 [(0, ["1000 chrome 20.0 10.0"]), (1, ["1000 chrome 20.0 10.0"])])
        CPU_TRACE_DATA = true
    ∧ GetTraceFor
        (cycleSink 7 [(0, ["1000 chrome 20.0 10.0"]), (1, ["1000 chrome 20.0 10.0"])])
        CPU_TRACE_DATA =
        some (cyclePayload 7
          [(0, ["1000 chrome 20.0 10.0"]), (1, ["1000 chrome 20.0 10.0"])])
    ∧ jIsNonEmptyArr
        (cyclePayload 7
          [(0, ["1000 chrome 20.0 10.0"]), (1, ["1000 chrome 20.0 10.0"])]) = true
    ∧ ∀ e ∈ jArrElems
        (cyclePayload 7
          [(0, ["1000 chrome 20.0 10.0"]), (1, ["1000 chrome 20.0 10.0"])]),
        (∀ k, k ∈ jKeys e ↔ k ∈ TRACE_EVENT_KEYS)
        ∧ ∃ args snap ps,
            jLookup e "args" = some args
            ∧ jKeys args = ["snapshot"]
            ∧ jLookup args "snapshot" = some snap
            ∧ jKeys snap = ["processes"]
            ∧ jLookup snap "processes" = some (JValue.jarr ps)
            ∧ ps ≠ []
            ∧ ∀ p ∈ ps, ∀ k, k ∈ jKeys p ↔ k ∈ SNAPSHOT_KEYS :=
  cycle_wire_format ⟨true⟩ 7 0 1
    ["1000 chrome 20.0 10.0"] ["1000 chrome 20.0 10.0"] rfl (by decide)

/-- C9: the unit test's threshold check compares the raw string `pCpu`
field against the numeric constant with >=, and under Python 2
cross-type ordering a string is always greater than a number, so the
assertion evaluates to True for every string-valued record regardless
of the numeric value the string denotes: in particular it holds for
"0.0", whose numeric reading is strictly below the threshold. -/
theorem py2_threshold_assertion_vacuous :
    (∀ s : String, testThresholdAssertion s = true)
    ∧ testThresholdAssertion "0.0" = true
    ∧ parseDecimal "0.0" = some ⟨0, 1⟩
    ∧ DEFAULT_MIN_PCPU.le ⟨0, 1⟩ = false
    ∧ meetsThreshold ⟨"1000", "chrome", "0.0", "10.0"⟩ = false :=
  ⟨fun _ => rfl, rfl, by decide, by decide, by decide⟩

end CpuTrace
